import Mathlib

/-!
Shallow embedding of the Pong simulation implemented as DuckDB SQL in
`src/src/main.rs` (constants `SETUP_SQL`, `TICK_SQL`, `RENDER_SQL`).

Modelling conventions:
* SQL `INTEGER` columns and integer arithmetic are modelled as `Int`.
* DuckDB's `/` on integers is float division; expressions that flow through
  it are modelled in `ℚ` and cast back with `duckCast` exactly where the SQL
  casts (an explicit `CAST(... AS INTEGER)` or storage into an `INTEGER`
  column of the `state` table).
* DuckDB casts floating-point values to integers by rounding to the nearest
  integer (documented cast semantics, matching PostgreSQL).  `duckCast` uses
  Mathlib's `round` (ties round up, DuckDB ties round to even); no expression
  appearing in any theorem below is evaluated at a tie, so the difference is
  immaterial to every statement in this file.
* Each syntactic occurrence of `random()` is a distinct volatile call in
  DuckDB, hence an independent uniform draw on `[0,1)`.  The draws consumed
  by one tick are gathered in the `Draws` record, one field per call site;
  draws are `ℚ` so that every definition stays executable.
-/

/-- Field parameters, from the `params` table of `SETUP_SQL`. -/
structure Params where
  W : Int
  H : Int
  PADDLE_H : Int
  PADDLE_SPEED : Int
deriving DecidableEq, Repr

/-- The concrete parameter row inserted by `SETUP_SQL`:
`W = 80, H = 25, PADDLE_H = 7, PADDLE_SPEED = 2`. -/
def params : Params := ⟨80, 25, 7, 2⟩

/-- The single row of the `state` table. -/
structure GameState where
  tick : Int
  ax : Int
  bx : Int
  ball_x : Int
  ball_y : Int
  vx : Int
  vy : Int
  score_a : Int
  score_b : Int
deriving DecidableEq, Repr

/-- DuckDB `CAST(double AS INTEGER)`: rounds to the nearest integer. -/
def duckCast (q : ℚ) : Int := round q

/-- The independent uniform draws consumed by one execution of `TICK_SQL`,
one field per syntactic `random()` call site:
`at1`–`at4` the four draws of player A's trick-shot CASE, `ad` player A's
defensive 0.85 draw, `bt1`–`bt4`/`bd` the same for player B, `sy` the serve
`ball_y` draw and `sv` the serve `vy` draw of `next_state`. -/
structure Draws where
  at1 : ℚ
  at2 : ℚ
  at3 : ℚ
  at4 : ℚ
  ad : ℚ
  bt1 : ℚ
  bt2 : ℚ
  bt3 : ℚ
  bt4 : ℚ
  bd : ℚ
  sy : ℚ
  sv : ℚ
deriving DecidableEq, Repr

/-- `ai` CTE, column `ax2` (player A's target).  `greatest` is `max`,
`least` is `min`; each `random() < c` compares a fresh draw with `c`. -/
def aiTargetA (p : Params) (s : GameState) (r : Draws) : Int :=
  if s.vx < 0 ∧ s.ball_x ≤ 5 then
    if r.at1 < 1/4 then max (s.ball_y - 0) 1
    else if r.at2 < 1/2 then max (s.ball_y - 1) 1
    else if r.at3 < 11/20 then max (s.ball_y - 3) 1
    else if r.at4 < 3/4 then max (s.ball_y - 5) 1
    else max (s.ball_y - 6) 1
  else if r.ad < 17/20 then
    if s.ball_y < s.ax + 2 then max (s.ax - p.PADDLE_SPEED) 1
    else if s.ball_y > s.ax + p.PADDLE_H - 3 then
      min (s.ax + p.PADDLE_SPEED) (p.H - p.PADDLE_H - 1)
    else s.ax
  else s.ax

/-- `ai` CTE, column `bx2` (player B's target), the mirrored logic. -/
def aiTargetB (p : Params) (s : GameState) (r : Draws) : Int :=
  if s.vx > 0 ∧ s.ball_x ≥ p.W - 6 then
    if r.bt1 < 1/4 then max (s.ball_y - 0) 1
    else if r.bt2 < 1/2 then max (s.ball_y - 1) 1
    else if r.bt3 < 11/20 then max (s.ball_y - 3) 1
    else if r.bt4 < 3/4 then max (s.ball_y - 5) 1
    else max (s.ball_y - 6) 1
  else if r.bd < 17/20 then
    if s.ball_y < s.bx + 2 then max (s.bx - p.PADDLE_SPEED) 1
    else if s.ball_y > s.bx + p.PADDLE_H - 3 then
      min (s.bx + p.PADDLE_SPEED) (p.H - p.PADDLE_H - 1)
    else s.bx
  else s.bx

/-- `step` CTE, column `nx`. -/
def stepNx (s : GameState) : Int := s.ball_x + s.vx

/-- `step` CTE, column `ny`. -/
def stepNy (s : GameState) : Int := s.ball_y + s.vy

/-- `wall` CTE, column `ny1`. -/
def wallNy (p : Params) (s : GameState) : Int :=
  if stepNy s ≤ 1 then 1
  else if stepNy s ≥ p.H - 2 then p.H - 2
  else stepNy s

/-- `wall` CTE, column `vy1`. -/
def wallVy (p : Params) (s : GameState) : Int :=
  if stepNy s ≤ 1 ∨ stepNy s ≥ p.H - 2 then -s.vy else s.vy

/-- Inner CASE shared by both arms of the `paddle` CTE's `vy2`: the bounce
zone table on the offset `d = ny1 - target`. -/
def bounceVy (d : Int) : Int :=
  if d = 0 then -2
  else if d ≤ 2 then -1
  else if d ≤ 4 then 0
  else if d ≤ 5 then 1
  else 2

/-- `paddle` CTE, column `vx2`. -/
def paddleVx (p : Params) (nx ny1 vx1 ax2 bx2 : Int) : Int :=
  if nx ≤ 1 ∧ vx1 < 0 ∧ ax2 ≤ ny1 ∧ ny1 ≤ ax2 + p.PADDLE_H - 1 then 1
  else if nx ≥ p.W - 2 ∧ vx1 > 0 ∧ bx2 ≤ ny1 ∧ ny1 ≤ bx2 + p.PADDLE_H - 1 then -1
  else vx1

/-- `paddle` CTE, column `vy2`. -/
def paddleVy (p : Params) (nx ny1 vx1 vy1 ax2 bx2 : Int) : Int :=
  if nx ≤ 1 ∧ vx1 < 0 ∧ ax2 ≤ ny1 ∧ ny1 ≤ ax2 + p.PADDLE_H - 1 then
    bounceVy (ny1 - ax2)
  else if nx ≥ p.W - 2 ∧ vx1 > 0 ∧ bx2 ≤ ny1 ∧ ny1 ≤ bx2 + p.PADDLE_H - 1 then
    bounceVy (ny1 - bx2)
  else vy1

/-- Which player a point goes to. -/
inductive Side where
  | A : Side
  | B : Side
deriving DecidableEq, Repr

/-- `sc` CTE, column `point_to` (`NULL` is `none`). -/
def pointTo (p : Params) (nx : Int) : Option Side :=
  if nx < 1 then some Side.B
  else if nx > p.W - 2 then some Side.A
  else none

/-- One execution of `TICK_SQL`: the `next_state` CTE written back by the
final `UPDATE`. -/
def tick (p : Params) (r : Draws) (s : GameState) : GameState :=
  let ax2 := aiTargetA p s r
  let bx2 := aiTargetB p s r
  let nx := stepNx s
  let ny1 := wallNy p s
  let vx1 := s.vx
  let vy1 := wallVy p s
  let vx2 := paddleVx p nx ny1 vx1 ax2 bx2
  let vy2 := paddleVy p nx ny1 vx1 vy1 ax2 bx2
  let pt := pointTo p nx
  { tick := s.tick + 1
    ax := ax2
    bx := bx2
    ball_x :=
      match pt with
      | none => nx
      | some Side.A => duckCast ((p.W : ℚ) / 2 + 1)
      | some Side.B => duckCast ((p.W : ℚ) / 2 - 1)
    ball_y :=
      match pt with
      | none => ny1
      | some _ => duckCast ((p.H : ℚ) / 2 + (r.sy * 6 - 3))
    vx :=
      match pt with
      | none => vx2
      | some Side.A => -1
      | some Side.B => 1
    vy :=
      match pt with
      | none => vy2
      | some _ => duckCast (r.sv * 5 - 2)
    score_a := s.score_a + (if pt = some Side.A then 1 else 0)
    score_b := s.score_b + (if pt = some Side.B then 1 else 0) }

/-- The row inserted by `SETUP_SQL`, as a function of its three draws
(`ball_y` draw, direction draw, `vy` draw). -/
def initState (p : Params) (ry rdir rv : ℚ) : GameState :=
  { tick := 0
    ax := duckCast (((p.H - p.PADDLE_H : Int) : ℚ) / 2)
    bx := duckCast (((p.H - p.PADDLE_H : Int) : ℚ) / 2)
    ball_x := duckCast ((p.W : ℚ) / 2)
    ball_y := duckCast ((p.H : ℚ) / 2 + (ry * 6 - 3))
    vx := if rdir < 1/2 then 1 else -1
    vy := duckCast (rv * 5 - 2)
    score_a := 0
    score_b := 0 }

/-- One cell of `RENDER_SQL`'s CASE, first match wins.  The centre-line test
compares the `INTEGER` column `x` with the `DOUBLE` `W/2`, so it is a
rational comparison. -/
def renderCell (p : Params) (s : GameState) (y x : Int) : Char :=
  if y = 0 ∨ y = p.H - 1 then '▀'
  else if x = 1 ∧ s.ax ≤ y ∧ y ≤ s.ax + p.PADDLE_H - 1 then '█'
  else if x = p.W - 2 ∧ s.bx ≤ y ∧ y ≤ s.bx + p.PADDLE_H - 1 then '█'
  else if x = s.ball_x ∧ y = s.ball_y then '█'
  else if (x : ℚ) = (p.W : ℚ) / 2 ∧ y % 3 = 1 then '█'
  else ' '

/-- One line of `RENDER_SQL`: `string_agg` over `x` from `range(0, W)`. -/
def renderRow (p : Params) (s : GameState) (y : Int) : String :=
  ⟨(List.range p.W.toNat).map fun i : ℕ => renderCell p s y (i : Int)⟩

/-- `RENDER_SQL`: the `H` lines, `ORDER BY y`. -/
def render (p : Params) (s : GameState) : List String :=
  (List.range p.H.toNat).map fun j : ℕ => renderRow p s (j : Int)

/-- The chained trick-shot CASE of the `ai` CTE, extracted as the amount
subtracted from `ball_y` (the spec's offset is its negation).  Each branch
condition compares its own fresh `random()` draw. -/
def trickOffset (r1 r2 r3 r4 : ℚ) : Int :=
  if r1 < 1/4 then 0
  else if r2 < 1/2 then 1
  else if r3 < 11/20 then 3
  else if r4 < 3/4 then 5
  else 6

/-- The unit cube of the four independent `random()` draws of one trick-shot
CASE, as real numbers: component `i` is the draw consumed by branch `i`'s
`random() < c` condition. -/
def unitDraws : Set (ℝ × ℝ × ℝ × ℝ) :=
  Set.Ico (0 : ℝ) 1 ×ˢ Set.Ico (0 : ℝ) 1 ×ˢ Set.Ico (0 : ℝ) 1 ×ˢ Set.Ico (0 : ℝ) 1

/-- The set of draw vectors on which the trick-shot CASE selects the branch
subtracting `k` from `ball_y`: branch `k` fires when every earlier branch
condition failed on its own draw and branch `k`'s condition holds on its
draw. -/
def trickDrawSet (k : Int) : Set (ℝ × ℝ × ℝ × ℝ) :=
  if k = 0 then {p | p.1 < 1/4}
  else if k = 1 then {p | ¬ p.1 < 1/4 ∧ p.2.1 < 1/2}
  else if k = 3 then {p | ¬ p.1 < 1/4 ∧ ¬ p.2.1 < 1/2 ∧ p.2.2.1 < 11/20}
  else if k = 5 then {p | ¬ p.1 < 1/4 ∧ ¬ p.2.1 < 1/2 ∧ ¬ p.2.2.1 < 11/20 ∧ p.2.2.2 < 3/4}
  else if k = 6 then {p | ¬ p.1 < 1/4 ∧ ¬ p.2.1 < 1/2 ∧ ¬ p.2.2.1 < 11/20 ∧ ¬ p.2.2.2 < 3/4}
  else ∅

/-! ## Helper lemmas -/

theorem params_W : params.W = 80 := rfl

theorem params_H : params.H = 25 := rfl

theorem params_PADDLE_H : params.PADDLE_H = 7 := rfl

theorem params_PADDLE_SPEED : params.PADDLE_SPEED = 2 := rfl

theorem duckCast_eq {q : ℚ} {n : Int} (h1 : (n : ℚ) ≤ q + 1/2) (h2 : q + 1/2 < (n : ℚ) + 1) :
    duckCast q = n := by
  rw [duckCast, round_eq]
  exact Int.floor_eq_iff.mpr ⟨h1, h2⟩

theorem pointTo_eq_B {nx : Int} (h : nx < 1) : pointTo params nx = some Side.B := by
  simp [pointTo, h]

theorem pointTo_eq_A {nx : Int} (h : params.W - 2 < nx) :
    pointTo params nx = some Side.A := by
  rw [params_W] at h
  simp only [pointTo, params_W]
  rw [if_neg (by omega), if_pos (by omega)]

theorem pointTo_eq_none {nx : Int} (h1 : 1 ≤ nx) (h2 : nx ≤ params.W - 2) :
    pointTo params nx = none := by
  rw [params_W] at h2
  simp only [pointTo, params_W]
  rw [if_neg (by omega), if_neg (by omega)]

/-! ## C1 -/

/-- C1 is refuted: the serve expression `CAST(random() * 5 - 2 AS INTEGER)`
can produce `vy = 3`, because DuckDB's float-to-integer cast rounds.  With
draw `0.95` it stores `round(2.75) = 3`, both in the initial state of
`SETUP_SQL` and in the serve reset of `TICK_SQL` after player B scores, so a
reachable state has `vy ∉ {-2,-1,0,1,2}`. -/
theorem serve_vy_three :
    (initState params (1/4) (3/4) (19/20)).vy = 3 ∧
    (tick params ⟨0, 0, 0, 0, 0, 0, 0, 0, 0, 0, 0, 19/20⟩
        ⟨0, 9, 9, 0, 10, -1, 0, 0, 0⟩).vy = 3 ∧
    ¬ ((3 : Int) = -2 ∨ (3 : Int) = -1 ∨ (3 : Int) = 0 ∨
        (3 : Int) = 1 ∨ (3 : Int) = 2) := by
  refine ⟨?_, ?_, by decide⟩
  · show duckCast ((19/20 : ℚ) * 5 - 2) = 3
    exact duckCast_eq (by norm_num) (by norm_num)
  · have hpt : pointTo params (stepNx ⟨0, 9, 9, 0, 10, -1, 0, 0, 0⟩) = some Side.B := by
      simp [pointTo, stepNx]
    simp only [tick, hpt]
    exact duckCast_eq (by norm_num) (by norm_num)

/-! ## C2 -/

/-- C2 counterexample: in the trick-shot branch the target is only clamped
from below (`greatest(..., 1)`), so with the ball at row 23 approaching the
left paddle the policy returns target 23, above `H - PADDLE_H - 1 = 17`. -/
theorem aiTarget_exceeds_upper_bound :
    aiTargetA params ⟨0, 9, 9, 3, 23, -1, 0, 0, 0⟩
        ⟨0, 0, 0, 0, 0, 0, 0, 0, 0, 0, 0, 0⟩ = 23 ∧
    ¬ (23 : Int) ≤ params.H - params.PADDLE_H - 1 := by
  constructor
  · norm_num [aiTargetA]
  · decide

/-- C2 amended: the opponent policy's target is always at least 1 (provided
the paddle's current row is at least 1) and never exceeds
`max (max ball_y paddle_row) (H - PADDLE_H - 1)`; the upper clamp to
`H - PADDLE_H - 1` is applied only in the defensive-tracking branch, while
the trick-shot branch clamps only from below and can return rows up to
`ball_y`. -/
theorem aiTarget_bounds (s : GameState) (r : Draws) :
    (1 ≤ s.ax → 1 ≤ aiTargetA params s r ∧
      aiTargetA params s r ≤ max (max s.ball_y s.ax) (params.H - params.PADDLE_H - 1)) ∧
    (1 ≤ s.bx → 1 ≤ aiTargetB params s r ∧
      aiTargetB params s r ≤ max (max s.ball_y s.bx) (params.H - params.PADDLE_H - 1)) := by
  rw [params_H, params_PADDLE_H]
  constructor
  · intro h
    unfold aiTargetA
    rw [params_H, params_PADDLE_H, params_PADDLE_SPEED]
    split_ifs <;> constructor <;> omega
  · intro h
    unfold aiTargetB
    rw [params_H, params_PADDLE_H, params_PADDLE_SPEED]
    split_ifs <;> constructor <;> omega

/-- Witness for `aiTarget_bounds` at a concrete in-bounds state. -/
theorem aiTarget_bounds_witness :
    (1 ≤ aiTargetA params ⟨0, 9, 9, 40, 12, 1, 0, 0, 0⟩
        ⟨0, 0, 0, 0, 0, 0, 0, 0, 0, 0, 0, 0⟩ ∧
      aiTargetA params ⟨0, 9, 9, 40, 12, 1, 0, 0, 0⟩
        ⟨0, 0, 0, 0, 0, 0, 0, 0, 0, 0, 0, 0⟩ ≤
        max (max (12 : Int) 9) (params.H - params.PADDLE_H - 1)) ∧
    (1 ≤ aiTargetB params ⟨0, 9, 9, 40, 12, 1, 0, 0, 0⟩
        ⟨0, 0, 0, 0, 0, 0, 0, 0, 0, 0, 0, 0⟩ ∧
      aiTargetB params ⟨0, 9, 9, 40, 12, 1, 0, 0, 0⟩
        ⟨0, 0, 0, 0, 0, 0, 0, 0, 0, 0, 0, 0⟩ ≤
        max (max (12 : Int) 9) (params.H - params.PADDLE_H - 1)) :=
  ⟨(aiTarget_bounds ⟨0, 9, 9, 40, 12, 1, 0, 0, 0⟩
      ⟨0, 0, 0, 0, 0, 0, 0, 0, 0, 0, 0, 0⟩).1 (by decide),
   (aiTarget_bounds ⟨0, 9, 9, 40, 12, 1, 0, 0, 0⟩
      ⟨0, 0, 0, 0, 0, 0, 0, 0, 0, 0, 0, 0⟩).2 (by decide)⟩

/-! ## C4 -/

/-- C4: a tick with tentative `x < 1` gives player B the point and re-serves
at `x = W/2 - 1` with `vx = +1`; a tick with tentative `x > W - 2` gives
player A the point and re-serves at `x = W/2 + 1` with `vx = -1`; in every
other tick the scores are unchanged and the physics-step position and
velocity (`nx`, `ny1`, `vx2`, `vy2`) are committed as computed. -/
theorem tick_scoring_cases (s : GameState) (r : Draws) :
    (stepNx s < 1 →
      (tick params r s).score_b = s.score_b + 1 ∧
      (tick params r s).score_a = s.score_a ∧
      (tick params r s).ball_x = params.W / 2 - 1 ∧
      (tick params r s).vx = 1) ∧
    (stepNx s > params.W - 2 →
      (tick params r s).score_a = s.score_a + 1 ∧
      (tick params r s).score_b = s.score_b ∧
      (tick params r s).ball_x = params.W / 2 + 1 ∧
      (tick params r s).vx = -1) ∧
    (1 ≤ stepNx s → stepNx s ≤ params.W - 2 →
      (tick params r s).score_a = s.score_a ∧
      (tick params r s).score_b = s.score_b ∧
      (tick params r s).ball_x = stepNx s ∧
      (tick params r s).ball_y = wallNy params s ∧
      (tick params r s).vx = paddleVx params (stepNx s) (wallNy params s) s.vx
        (aiTargetA params s r) (aiTargetB params s r) ∧
      (tick params r s).vy = paddleVy params (stepNx s) (wallNy params s) s.vx
        (wallVy params s) (aiTargetA params s r) (aiTargetB params s r)) := by
  refine ⟨fun h => ?_, fun h => ?_, fun h1 h2 => ?_⟩
  · have hpt := pointTo_eq_B h
    refine ⟨?_, ?_, ?_, ?_⟩
    · simp [tick, hpt]
    · simp [tick, hpt]
    · simp only [tick, hpt, params_W]
      norm_num
      exact duckCast_eq (by norm_num) (by norm_num)
    · simp [tick, hpt]
  · rw [params_W] at h
    have hpt : pointTo params (stepNx s) = some Side.A := pointTo_eq_A (by rw [params_W]; omega)
    refine ⟨?_, ?_, ?_, ?_⟩
    · simp [tick, hpt]
    · simp [tick, hpt]
    · simp only [tick, hpt, params_W]
      norm_num
      exact duckCast_eq (by norm_num) (by norm_num)
    · simp [tick, hpt]
  · have hpt : pointTo params (stepNx s) = none := pointTo_eq_none h1 h2
    refine ⟨?_, ?_, ?_, ?_, ?_, ?_⟩ <;> simp [tick, hpt]

/-- Witness for `tick_scoring_cases`: the ball at `x = 0` moving left makes
player B score and the re-serve lands at `x = 39` moving right. -/
theorem tick_scoring_cases_witness :
    (tick params ⟨0, 0, 0, 0, 0, 0, 0, 0, 0, 0, 0, 0⟩
        ⟨0, 9, 9, 0, 10, -1, 0, 0, 0⟩).score_b = 0 + 1 ∧
    (tick params ⟨0, 0, 0, 0, 0, 0, 0, 0, 0, 0, 0, 0⟩
        ⟨0, 9, 9, 0, 10, -1, 0, 0, 0⟩).score_a = 0 ∧
    (tick params ⟨0, 0, 0, 0, 0, 0, 0, 0, 0, 0, 0, 0⟩
        ⟨0, 9, 9, 0, 10, -1, 0, 0, 0⟩).ball_x = params.W / 2 - 1 ∧
    (tick params ⟨0, 0, 0, 0, 0, 0, 0, 0, 0, 0, 0, 0⟩
        ⟨0, 9, 9, 0, 10, -1, 0, 0, 0⟩).vx = 1 :=
  (tick_scoring_cases ⟨0, 9, 9, 0, 10, -1, 0, 0, 0⟩
    ⟨0, 0, 0, 0, 0, 0, 0, 0, 0, 0, 0, 0⟩).1 (by decide)

/-! ## C5 -/

/-- C5: the paddle stage, evaluated on the wall-reflected row.  A left
collision (`nx ≤ 1`, moving left, reflected row inside
`[ax2, ax2 + PADDLE_H - 1]`) sets `vx = +1` and draws `vy` from the zone
table on `d = ny1 - ax2`; the symmetric right collision sets `vx = -1`;
without a collision both velocities pass through.  The zone table is
`d=0 → -2`, `d∈{1,2} → -1`, `d∈{3,4} → 0`, `d=5 → +1`, `d≥6 → +2`, so for
`PADDLE_H = 7` offsets `0..6` map to `-2,-1,-1,0,0,1,2`. -/
theorem paddle_collision_cases (nx ny1 vx1 vy1 ax2 bx2 : Int) :
    ((nx ≤ 1 ∧ vx1 < 0 ∧ ax2 ≤ ny1 ∧ ny1 ≤ ax2 + params.PADDLE_H - 1) →
      paddleVx params nx ny1 vx1 ax2 bx2 = 1 ∧
      paddleVy params nx ny1 vx1 vy1 ax2 bx2 = bounceVy (ny1 - ax2)) ∧
    ((nx ≥ params.W - 2 ∧ vx1 > 0 ∧ bx2 ≤ ny1 ∧ ny1 ≤ bx2 + params.PADDLE_H - 1) →
      paddleVx params nx ny1 vx1 ax2 bx2 = -1 ∧
      paddleVy params nx ny1 vx1 vy1 ax2 bx2 = bounceVy (ny1 - bx2)) ∧
    (¬ (nx ≤ 1 ∧ vx1 < 0 ∧ ax2 ≤ ny1 ∧ ny1 ≤ ax2 + params.PADDLE_H - 1) →
      ¬ (nx ≥ params.W - 2 ∧ vx1 > 0 ∧ bx2 ≤ ny1 ∧ ny1 ≤ bx2 + params.PADDLE_H - 1) →
      paddleVx params nx ny1 vx1 ax2 bx2 = vx1 ∧
      paddleVy params nx ny1 vx1 vy1 ax2 bx2 = vy1) ∧
    (∀ d : Int,
      (d = 0 → bounceVy d = -2) ∧ (1 ≤ d → d ≤ 2 → bounceVy d = -1) ∧
      (3 ≤ d → d ≤ 4 → bounceVy d = 0) ∧ (d = 5 → bounceVy d = 1) ∧
      (6 ≤ d → bounceVy d = 2)) ∧
    (bounceVy 0 = -2 ∧ bounceVy 1 = -1 ∧ bounceVy 2 = -1 ∧ bounceVy 3 = 0 ∧
      bounceVy 4 = 0 ∧ bounceVy 5 = 1 ∧ bounceVy 6 = 2) := by
  refine ⟨fun h => ?_, fun h => ?_, fun hL hR => ?_, fun d => ?_, by decide⟩
  · rw [paddleVx, if_pos h, paddleVy, if_pos h]
    exact ⟨rfl, rfl⟩
  · have hL : ¬ (nx ≤ 1 ∧ vx1 < 0 ∧ ax2 ≤ ny1 ∧ ny1 ≤ ax2 + params.PADDLE_H - 1) := by
      rintro ⟨-, hneg, -, -⟩
      omega
    rw [paddleVx, if_neg hL, if_pos h, paddleVy, if_neg hL, if_pos h]
    exact ⟨rfl, rfl⟩
  · rw [paddleVx, if_neg hL, if_neg hR, paddleVy, if_neg hL, if_neg hR]
    exact ⟨rfl, rfl⟩
  · unfold bounceVy
    refine ⟨fun h => ?_, fun h1 h2 => ?_, fun h1 h2 => ?_, fun h => ?_, fun h => ?_⟩ <;>
      split_ifs <;> omega

/-- Witness for `paddle_collision_cases`: the spec's end-to-end scenario —
ball reflected to row 10 against a left paddle whose target top is 8 gives
offset `d = 2`, so `vx` flips to `+1` and `vy = -1`. -/
theorem paddle_collision_cases_witness :
    (paddleVx params 1 10 (-1) 8 9 = 1 ∧
      paddleVy params 1 10 (-1) 0 8 9 = bounceVy (10 - 8)) ∧
    bounceVy (10 - 8) = -1 :=
  ⟨(paddle_collision_cases 1 10 (-1) 0 8 9).1 (by decide), by decide⟩

/-! ## C6 -/

/-- C6: wall reflection.  If the tentative row `ny = ball_y + vy` is `≤ 1`
the row becomes 1 and `vy` is negated; if it is `≥ H - 2` the row becomes
`H - 2` and `vy` is negated; otherwise row and `vy` pass through. -/
theorem wall_reflection_cases (s : GameState) :
    (stepNy s ≤ 1 → wallNy params s = 1 ∧ wallVy params s = -s.vy) ∧
    (stepNy s ≥ params.H - 2 → wallNy params s = params.H - 2 ∧ wallVy params s = -s.vy) ∧
    (1 < stepNy s → stepNy s < params.H - 2 →
      wallNy params s = stepNy s ∧ wallVy params s = s.vy) := by
  simp only [wallNy, wallVy, params_H]
  refine ⟨fun h => ?_, fun h => ?_, fun h1 h2 => ?_⟩ <;>
    split_ifs <;> constructor <;> omega

/-- Witness for `wall_reflection_cases`: ball at row 2 moving up with
`vy = -2` reflects to row 1 with `vy = +2`. -/
theorem wall_reflection_cases_witness :
    wallNy params ⟨0, 9, 9, 40, 2, 1, -2, 0, 0⟩ = 1 ∧
    wallVy params ⟨0, 9, 9, 40, 2, 1, -2, 0, 0⟩ = -(-2) :=
  (wall_reflection_cases ⟨0, 9, 9, 40, 2, 1, -2, 0, 0⟩).1 (by decide)

/-! ## C7 -/

/-- C7: in one tick each score is unchanged or incremented by exactly 1,
and never are both incremented; hence both scores are monotonically
non-decreasing. -/
theorem score_step_cases (s : GameState) (r : Draws) :
    ((tick params r s).score_a = s.score_a ∨ (tick params r s).score_a = s.score_a + 1) ∧
    ((tick params r s).score_b = s.score_b ∨ (tick params r s).score_b = s.score_b + 1) ∧
    ¬ ((tick params r s).score_a = s.score_a + 1 ∧
        (tick params r s).score_b = s.score_b + 1) := by
  rcases h : pointTo params (stepNx s) with _ | side
  · simp only [tick, h]
    refine ⟨Or.inl (by simp), Or.inl (by simp), ?_⟩
    rintro ⟨ha, -⟩
    simp at ha
  · cases side
    · simp only [tick, h]
      refine ⟨Or.inr (by simp), Or.inl (by simp), ?_⟩
      rintro ⟨-, hb⟩
      simp at hb
    · simp only [tick, h]
      refine ⟨Or.inl (by simp), Or.inr (by simp), ?_⟩
      rintro ⟨ha, -⟩
      simp at ha

/-- Witness for `score_step_cases` at a concrete scoring state. -/
theorem score_step_cases_witness :
    ((tick params ⟨0, 0, 0, 0, 0, 0, 0, 0, 0, 0, 0, 0⟩
        ⟨0, 9, 9, 0, 10, -1, 0, 0, 0⟩).score_a = 0 ∨
      (tick params ⟨0, 0, 0, 0, 0, 0, 0, 0, 0, 0, 0, 0⟩
        ⟨0, 9, 9, 0, 10, -1, 0, 0, 0⟩).score_a = 0 + 1) ∧
    ((tick params ⟨0, 0, 0, 0, 0, 0, 0, 0, 0, 0, 0, 0⟩
        ⟨0, 9, 9, 0, 10, -1, 0, 0, 0⟩).score_b = 0 ∨
      (tick params ⟨0, 0, 0, 0, 0, 0, 0, 0, 0, 0, 0, 0⟩
        ⟨0, 9, 9, 0, 10, -1, 0, 0, 0⟩).score_b = 0 + 1) ∧
    ¬ ((tick params ⟨0, 0, 0, 0, 0, 0, 0, 0, 0, 0, 0, 0⟩
        ⟨0, 9, 9, 0, 10, -1, 0, 0, 0⟩).score_a = 0 + 1 ∧
      (tick params ⟨0, 0, 0, 0, 0, 0, 0, 0, 0, 0, 0, 0⟩
        ⟨0, 9, 9, 0, 10, -1, 0, 0, 0⟩).score_b = 0 + 1) :=
  score_step_cases ⟨0, 9, 9, 0, 10, -1, 0, 0, 0⟩ ⟨0, 0, 0, 0, 0, 0, 0, 0, 0, 0, 0, 0⟩

/-! ## C8 -/

/-- C8: after a tick in which no player scores, the committed ball position
satisfies `1 ≤ ball_y ≤ H - 2` and `0 ≤ ball_x ≤ W - 1`. -/
theorem nonscoring_ball_bounds (s : GameState) (r : Draws)
    (h : pointTo params (stepNx s) = none) :
    1 ≤ (tick params r s).ball_y ∧ (tick params r s).ball_y ≤ params.H - 2 ∧
    0 ≤ (tick params r s).ball_x ∧ (tick params r s).ball_x ≤ params.W - 1 := by
  have hx : 1 ≤ stepNx s ∧ stepNx s ≤ params.W - 2 := by
    simp only [pointTo] at h
    split_ifs at h with h1 h2
    exact ⟨by omega, by omega⟩
  have hy : 1 ≤ wallNy params s ∧ wallNy params s ≤ params.H - 2 := by
    simp only [wallNy, params_H]
    split_ifs <;> omega
  simp only [tick, h, params_W, params_H] at *
  refine ⟨hy.1, hy.2, by omega, by omega⟩

/-- Witness for `nonscoring_ball_bounds` at a mid-field state. -/
theorem nonscoring_ball_bounds_witness :
    1 ≤ (tick params ⟨0, 0, 0, 0, 0, 0, 0, 0, 0, 0, 0, 0⟩
        ⟨0, 9, 9, 40, 12, 1, 0, 0, 0⟩).ball_y ∧
    (tick params ⟨0, 0, 0, 0, 0, 0, 0, 0, 0, 0, 0, 0⟩
        ⟨0, 9, 9, 40, 12, 1, 0, 0, 0⟩).ball_y ≤ params.H - 2 ∧
    0 ≤ (tick params ⟨0, 0, 0, 0, 0, 0, 0, 0, 0, 0, 0, 0⟩
        ⟨0, 9, 9, 40, 12, 1, 0, 0, 0⟩).ball_x ∧
    (tick params ⟨0, 0, 0, 0, 0, 0, 0, 0, 0, 0, 0, 0⟩
        ⟨0, 9, 9, 40, 12, 1, 0, 0, 0⟩).ball_x ≤ params.W - 1 :=
  nonscoring_ball_bounds ⟨0, 9, 9, 40, 12, 1, 0, 0, 0⟩
    ⟨0, 0, 0, 0, 0, 0, 0, 0, 0, 0, 0, 0⟩ (by decide)

/-! ## C10 -/

/-- C10: scoring overrides the paddle bounce of the same tick.  When the
tentative `x` is past an end line, the committed position and both velocity
components come from the serve reset, even when the wall-reflected row lies
inside the corresponding paddle's span (the condition under which the paddle
stage reverses `vx` and applies the zone table). -/
theorem scoring_overrides_paddle (s : GameState) (r : Draws) :
    (stepNx s < 1 → s.vx < 0 →
      aiTargetA params s r ≤ wallNy params s →
      wallNy params s ≤ aiTargetA params s r + params.PADDLE_H - 1 →
      (tick params r s).ball_x = params.W / 2 - 1 ∧
      (tick params r s).ball_y = duckCast ((params.H : ℚ) / 2 + (r.sy * 6 - 3)) ∧
      (tick params r s).vx = 1 ∧
      (tick params r s).vy = duckCast (r.sv * 5 - 2)) ∧
    (stepNx s > params.W - 2 → s.vx > 0 →
      aiTargetB params s r ≤ wallNy params s →
      wallNy params s ≤ aiTargetB params s r + params.PADDLE_H - 1 →
      (tick params r s).ball_x = params.W / 2 + 1 ∧
      (tick params r s).ball_y = duckCast ((params.H : ℚ) / 2 + (r.sy * 6 - 3)) ∧
      (tick params r s).vx = -1 ∧
      (tick params r s).vy = duckCast (r.sv * 5 - 2)) := by
  refine ⟨fun h _ _ _ => ?_, fun h _ _ _ => ?_⟩
  · have hpt := pointTo_eq_B h
    refine ⟨?_, ?_, ?_, ?_⟩
    · simp only [tick, hpt, params_W]
      norm_num
      exact duckCast_eq (by norm_num) (by norm_num)
    · simp [tick, hpt]
    · simp [tick, hpt]
    · simp [tick, hpt]
  · rw [params_W] at h
    have hpt : pointTo params (stepNx s) = some Side.A := pointTo_eq_A (by rw [params_W]; omega)
    refine ⟨?_, ?_, ?_, ?_⟩
    · simp only [tick, hpt, params_W]
      norm_num
      exact duckCast_eq (by norm_num) (by norm_num)
    · simp [tick, hpt]
    · simp [tick, hpt]
    · simp [tick, hpt]

/-- Witness for `scoring_overrides_paddle`: ball at `(0,10)` moving left,
left paddle target 10 so the collision condition holds, yet `tentative
x = -1 < 1` re-serves the ball at `x = 39`, `vx = +1`. -/
theorem scoring_overrides_paddle_witness :
    (tick params ⟨0, 0, 0, 0, 0, 0, 0, 0, 0, 0, 0, 0⟩
        ⟨0, 9, 9, 0, 10, -1, 0, 0, 0⟩).ball_x = params.W / 2 - 1 ∧
    (tick params ⟨0, 0, 0, 0, 0, 0, 0, 0, 0, 0, 0, 0⟩
        ⟨0, 9, 9, 0, 10, -1, 0, 0, 0⟩).ball_y =
      duckCast ((params.H : ℚ) / 2 + ((0 : ℚ) * 6 - 3)) ∧
    (tick params ⟨0, 0, 0, 0, 0, 0, 0, 0, 0, 0, 0, 0⟩
        ⟨0, 9, 9, 0, 10, -1, 0, 0, 0⟩).vx = 1 ∧
    (tick params ⟨0, 0, 0, 0, 0, 0, 0, 0, 0, 0, 0, 0⟩
        ⟨0, 9, 9, 0, 10, -1, 0, 0, 0⟩).vy = duckCast ((0 : ℚ) * 5 - 2) :=
  (scoring_overrides_paddle ⟨0, 9, 9, 0, 10, -1, 0, 0, 0⟩
      ⟨0, 0, 0, 0, 0, 0, 0, 0, 0, 0, 0, 0⟩).1
    (by decide) (by decide)
    (by norm_num [aiTargetA, wallNy, stepNy, params])
    (by norm_num [aiTargetA, wallNy, stepNy, params])

/-! ## C9 -/

/-- C9: `RENDER_SQL` produces exactly `H` lines in row order, each exactly
`W` characters, and the character in row `y`, column `x` is `renderCell`,
the first-match-wins CASE (border, left paddle, right paddle, ball,
centre-line every 3rd row, blank).  `render` takes no random draws, so the
output is a deterministic function of the state. -/
theorem render_grid (s : GameState) :
    (render params s).length = params.H.toNat ∧
    (∀ line ∈ render params s, line.length = params.W.toNat) ∧
    (∀ y x : ℕ, y < params.H.toNat → x < params.W.toNat →
      ((render params s).getD y "").data.getD x ' ' =
        renderCell params s (y : Int) (x : Int)) := by
  refine ⟨?_, ?_, ?_⟩
  · unfold render
    rw [List.length_map, List.length_range]
  · intro line hl
    unfold render at hl
    obtain ⟨j, hj, rfl⟩ := List.mem_map.mp hl
    show ((List.range params.W.toNat).map
      fun i : ℕ => renderCell params s (j : Int) (i : Int)).length = params.W.toNat
    rw [List.length_map, List.length_range]
  · intro y x hy hx
    unfold render
    rw [List.getD_eq_getElem?_getD, List.getD_eq_getElem?_getD,
      List.getElem?_map, List.getElem?_range hy]
    simp only [Option.map_some', Option.getD_some]
    show ((List.range params.W.toNat).map
      fun i : ℕ => renderCell params s (y : Int) (i : Int))[x]?.getD ' ' = _
    rw [List.getElem?_map, List.getElem?_range hx]
    simp only [Option.map_some', Option.getD_some]

/-- Witness for `render_grid`: at the top-left corner of a concrete state
the rendered character is the border cell. -/
theorem render_grid_witness :
    (render params ⟨0, 9, 9, 40, 12, 1, 0, 0, 0⟩).length = params.H.toNat ∧
    ((render params ⟨0, 9, 9, 40, 12, 1, 0, 0, 0⟩).getD 0 "").data.getD 0 ' ' =
      renderCell params ⟨0, 9, 9, 40, 12, 1, 0, 0, 0⟩ 0 0 :=
  ⟨(render_grid ⟨0, 9, 9, 40, 12, 1, 0, 0, 0⟩).1,
   (render_grid ⟨0, 9, 9, 40, 12, 1, 0, 0, 0⟩).2.2 0 0 (by decide) (by decide)⟩

/-! ## C3 -/

theorem aiTargetA_trick_eq (p : Params) (s : GameState) (r : Draws)
    (hvx : s.vx < 0) (hbx : s.ball_x ≤ 5) :
    aiTargetA p s r = max (s.ball_y - trickOffset r.at1 r.at2 r.at3 r.at4) 1 := by
  unfold aiTargetA trickOffset
  rw [if_pos (⟨hvx, hbx⟩ : s.vx < 0 ∧ s.ball_x ≤ 5)]
  split_ifs <;> rfl

theorem trickOffset_one_iff (r1 r2 r3 r4 : ℚ) :
    trickOffset r1 r2 r3 r4 = 1 ↔
      ((r1 : ℝ), (r2 : ℝ), (r3 : ℝ), (r4 : ℝ)) ∈ trickDrawSet 1 := by
  have c1 : ((r1 : ℝ) < 1/4) ↔ (r1 < 1/4) := by
    rw [show ((1 : ℝ)/4) = ((1/4 : ℚ) : ℝ) from by norm_num]
    exact Rat.cast_lt
  have c2 : ((r2 : ℝ) < 1/2) ↔ (r2 < 1/2) := by
    rw [show ((1 : ℝ)/2) = ((1/2 : ℚ) : ℝ) from by norm_num]
    exact Rat.cast_lt
  have hm : ((r1 : ℝ), (r2 : ℝ), (r3 : ℝ), (r4 : ℝ)) ∈ trickDrawSet 1 ↔
      ¬ (r1 : ℝ) < 1/4 ∧ (r2 : ℝ) < 1/2 := by
    simp [trickDrawSet]
  rw [hm, c1, c2]
  simp only [trickOffset]
  split_ifs <;> simp_all

theorem trickInterBox_zero :
    trickDrawSet 0 ∩ unitDraws =
      Set.Ico (0 : ℝ) (1/4) ×ˢ Set.Ico (0 : ℝ) 1 ×ˢ Set.Ico (0 : ℝ) 1 ×ˢ Set.Ico (0 : ℝ) 1 := by
  ext ⟨a, b, c, d⟩
  simp only [trickDrawSet, unitDraws, Set.mem_inter_iff, Set.mem_setOf_eq,
    Set.mem_prod, Set.mem_Ico]
  norm_num
  constructor
  · rintro ⟨h, ⟨ha1, ha2⟩, hb, hc, hd⟩
    exact ⟨⟨ha1, h⟩, hb, hc, hd⟩
  · rintro ⟨⟨ha1, ha2⟩, hb, hc, hd⟩
    exact ⟨ha2, ⟨ha1, by linarith⟩, hb, hc, hd⟩

theorem trickInterBox_one :
    trickDrawSet 1 ∩ unitDraws =
      Set.Ico (1/4 : ℝ) 1 ×ˢ Set.Ico (0 : ℝ) (1/2) ×ˢ Set.Ico (0 : ℝ) 1 ×ˢ
        Set.Ico (0 : ℝ) 1 := by
  ext ⟨a, b, c, d⟩
  simp only [trickDrawSet, unitDraws, Set.mem_inter_iff, Set.mem_setOf_eq,
    Set.mem_prod, Set.mem_Ico]
  norm_num
  constructor
  · rintro ⟨⟨h1, h2⟩, ⟨ha1, ha2⟩, ⟨hb1, hb2⟩, hc, hd⟩
    exact ⟨⟨h1, ha2⟩, ⟨hb1, h2⟩, hc, hd⟩
  · rintro ⟨⟨ha1, ha2⟩, ⟨hb1, hb2⟩, hc, hd⟩
    refine ⟨⟨ha1, hb2⟩, ⟨by linarith, ha2⟩, ⟨hb1, by linarith⟩, hc, hd⟩

theorem trickInterBox_three :
    trickDrawSet 3 ∩ unitDraws =
      Set.Ico (1/4 : ℝ) 1 ×ˢ Set.Ico (1/2 : ℝ) 1 ×ˢ Set.Ico (0 : ℝ) (11/20) ×ˢ
        Set.Ico (0 : ℝ) 1 := by
  ext ⟨a, b, c, d⟩
  simp only [trickDrawSet, unitDraws, Set.mem_inter_iff, Set.mem_setOf_eq,
    Set.mem_prod, Set.mem_Ico]
  norm_num
  constructor
  · rintro ⟨⟨h1, h2, h3⟩, ⟨ha1, ha2⟩, ⟨hb1, hb2⟩, ⟨hc1, hc2⟩, hd⟩
    exact ⟨⟨h1, ha2⟩, ⟨h2, hb2⟩, ⟨hc1, h3⟩, hd⟩
  · rintro ⟨⟨ha1, ha2⟩, ⟨hb1, hb2⟩, ⟨hc1, hc2⟩, hd⟩
    exact ⟨⟨ha1, hb1, hc2⟩, ⟨by linarith, ha2⟩, ⟨by linarith, hb2⟩, ⟨hc1, by linarith⟩, hd⟩

theorem trickInterBox_five :
    trickDrawSet 5 ∩ unitDraws =
      Set.Ico (1/4 : ℝ) 1 ×ˢ Set.Ico (1/2 : ℝ) 1 ×ˢ Set.Ico (11/20 : ℝ) 1 ×ˢ
        Set.Ico (0 : ℝ) (3/4) := by
  ext ⟨a, b, c, d⟩
  simp only [trickDrawSet, unitDraws, Set.mem_inter_iff, Set.mem_setOf_eq,
    Set.mem_prod, Set.mem_Ico]
  norm_num
  constructor
  · rintro ⟨⟨h1, h2, h3, h4⟩, ⟨ha1, ha2⟩, ⟨hb1, hb2⟩, ⟨hc1, hc2⟩, ⟨hd1, hd2⟩⟩
    exact ⟨⟨h1, ha2⟩, ⟨h2, hb2⟩, ⟨h3, hc2⟩, hd1, h4⟩
  · rintro ⟨⟨ha1, ha2⟩, ⟨hb1, hb2⟩, ⟨hc1, hc2⟩, ⟨hd1, hd2⟩⟩
    exact ⟨⟨ha1, hb1, hc1, hd2⟩, ⟨by linarith, ha2⟩, ⟨by linarith, hb2⟩,
      ⟨by linarith, hc2⟩, hd1, by linarith⟩

theorem trickInterBox_six :
    trickDrawSet 6 ∩ unitDraws =
      Set.Ico (1/4 : ℝ) 1 ×ˢ Set.Ico (1/2 : ℝ) 1 ×ˢ Set.Ico (11/20 : ℝ) 1 ×ˢ
        Set.Ico (3/4 : ℝ) 1 := by
  ext ⟨a, b, c, d⟩
  simp only [trickDrawSet, unitDraws, Set.mem_inter_iff, Set.mem_setOf_eq,
    Set.mem_prod, Set.mem_Ico]
  norm_num
  constructor
  · rintro ⟨⟨h1, h2, h3, h4⟩, ⟨ha1, ha2⟩, ⟨hb1, hb2⟩, ⟨hc1, hc2⟩, ⟨hd1, hd2⟩⟩
    exact ⟨⟨h1, ha2⟩, ⟨h2, hb2⟩, ⟨h3, hc2⟩, h4, hd2⟩
  · rintro ⟨⟨ha1, ha2⟩, ⟨hb1, hb2⟩, ⟨hc1, hc2⟩, ⟨hd1, hd2⟩⟩
    exact ⟨⟨ha1, hb1, hc1, hd1⟩, ⟨by linarith, ha2⟩, ⟨by linarith, hb2⟩,
      ⟨by linarith, hc2⟩, by linarith, hd2⟩

theorem trickVolume_zero :
    MeasureTheory.volume (trickDrawSet 0 ∩ unitDraws) = ENNReal.ofReal (1/4) := by
  rw [trickInterBox_zero]
  rw [show (MeasureTheory.volume : MeasureTheory.Measure (ℝ × ℝ × ℝ × ℝ)) =
    MeasureTheory.Measure.prod MeasureTheory.volume MeasureTheory.volume from rfl]
  rw [MeasureTheory.Measure.prod_prod]
  rw [show (MeasureTheory.volume : MeasureTheory.Measure (ℝ × ℝ × ℝ)) =
    MeasureTheory.Measure.prod MeasureTheory.volume MeasureTheory.volume from rfl]
  rw [MeasureTheory.Measure.prod_prod]
  rw [show (MeasureTheory.volume : MeasureTheory.Measure (ℝ × ℝ)) =
    MeasureTheory.Measure.prod MeasureTheory.volume MeasureTheory.volume from rfl]
  rw [MeasureTheory.Measure.prod_prod]
  simp only [Real.volume_Ico]
  norm_num

theorem trickVolume_one :
    MeasureTheory.volume (trickDrawSet 1 ∩ unitDraws) = ENNReal.ofReal (3/8) := by
  rw [trickInterBox_one]
  rw [show (MeasureTheory.volume : MeasureTheory.Measure (ℝ × ℝ × ℝ × ℝ)) =
    MeasureTheory.Measure.prod MeasureTheory.volume MeasureTheory.volume from rfl]
  rw [MeasureTheory.Measure.prod_prod]
  rw [show (MeasureTheory.volume : MeasureTheory.Measure (ℝ × ℝ × ℝ)) =
    MeasureTheory.Measure.prod MeasureTheory.volume MeasureTheory.volume from rfl]
  rw [MeasureTheory.Measure.prod_prod]
  rw [show (MeasureTheory.volume : MeasureTheory.Measure (ℝ × ℝ)) =
    MeasureTheory.Measure.prod MeasureTheory.volume MeasureTheory.volume from rfl]
  rw [MeasureTheory.Measure.prod_prod]
  simp only [Real.volume_Ico]
  norm_num
  rw [← ENNReal.ofReal_mul (by norm_num)]
  norm_num

theorem trickVolume_three :
    MeasureTheory.volume (trickDrawSet 3 ∩ unitDraws) = ENNReal.ofReal (33/160) := by
  rw [trickInterBox_three]
  rw [show (MeasureTheory.volume : MeasureTheory.Measure (ℝ × ℝ × ℝ × ℝ)) =
    MeasureTheory.Measure.prod MeasureTheory.volume MeasureTheory.volume from rfl]
  rw [MeasureTheory.Measure.prod_prod]
  rw [show (MeasureTheory.volume : MeasureTheory.Measure (ℝ × ℝ × ℝ)) =
    MeasureTheory.Measure.prod MeasureTheory.volume MeasureTheory.volume from rfl]
  rw [MeasureTheory.Measure.prod_prod]
  rw [show (MeasureTheory.volume : MeasureTheory.Measure (ℝ × ℝ)) =
    MeasureTheory.Measure.prod MeasureTheory.volume MeasureTheory.volume from rfl]
  rw [MeasureTheory.Measure.prod_prod]
  simp only [Real.volume_Ico]
  norm_num
  rw [← ENNReal.ofReal_mul (by norm_num), ← ENNReal.ofReal_mul (by norm_num)]
  norm_num

theorem trickVolume_five :
    MeasureTheory.volume (trickDrawSet 5 ∩ unitDraws) = ENNReal.ofReal (81/640) := by
  rw [trickInterBox_five]
  rw [show (MeasureTheory.volume : MeasureTheory.Measure (ℝ × ℝ × ℝ × ℝ)) =
    MeasureTheory.Measure.prod MeasureTheory.volume MeasureTheory.volume from rfl]
  rw [MeasureTheory.Measure.prod_prod]
  rw [show (MeasureTheory.volume : MeasureTheory.Measure (ℝ × ℝ × ℝ)) =
    MeasureTheory.Measure.prod MeasureTheory.volume MeasureTheory.volume from rfl]
  rw [MeasureTheory.Measure.prod_prod]
  rw [show (MeasureTheory.volume : MeasureTheory.Measure (ℝ × ℝ)) =
    MeasureTheory.Measure.prod MeasureTheory.volume MeasureTheory.volume from rfl]
  rw [MeasureTheory.Measure.prod_prod]
  simp only [Real.volume_Ico]
  rw [← ENNReal.ofReal_mul (by norm_num), ← ENNReal.ofReal_mul (by norm_num),
    ← ENNReal.ofReal_mul (by norm_num)]
  norm_num

theorem trickVolume_six :
    MeasureTheory.volume (trickDrawSet 6 ∩ unitDraws) = ENNReal.ofReal (27/640) := by
  rw [trickInterBox_six]
  rw [show (MeasureTheory.volume : MeasureTheory.Measure (ℝ × ℝ × ℝ × ℝ)) =
    MeasureTheory.Measure.prod MeasureTheory.volume MeasureTheory.volume from rfl]
  rw [MeasureTheory.Measure.prod_prod]
  rw [show (MeasureTheory.volume : MeasureTheory.Measure (ℝ × ℝ × ℝ)) =
    MeasureTheory.Measure.prod MeasureTheory.volume MeasureTheory.volume from rfl]
  rw [MeasureTheory.Measure.prod_prod]
  rw [show (MeasureTheory.volume : MeasureTheory.Measure (ℝ × ℝ)) =
    MeasureTheory.Measure.prod MeasureTheory.volume MeasureTheory.volume from rfl]
  rw [MeasureTheory.Measure.prod_prod]
  simp only [Real.volume_Ico]
  rw [← ENNReal.ofReal_mul (by norm_num), ← ENNReal.ofReal_mul (by norm_num),
    ← ENNReal.ofReal_mul (by norm_num)]
  norm_num

/-- C3 is refuted: each `WHEN random() < c` of the trick-shot CASE draws a
fresh independent uniform value, so the thresholds `0.25, 0.50, 0.55, 0.75`
are not cumulative.  Under the product uniform measure on the four draws the
branch probabilities are `1/4, 3/8, 33/160, 81/640, 27/640` for offsets
`0, -1, -3, -5, -6` — not the claimed `0.25, 0.25, 0.05, 0.20, 0.25`
(only the first matches). -/
theorem trick_branch_distribution :
    (MeasureTheory.volume (trickDrawSet 0 ∩ unitDraws) = ENNReal.ofReal (1/4) ∧
      MeasureTheory.volume (trickDrawSet 1 ∩ unitDraws) = ENNReal.ofReal (3/8) ∧
      MeasureTheory.volume (trickDrawSet 3 ∩ unitDraws) = ENNReal.ofReal (33/160) ∧
      MeasureTheory.volume (trickDrawSet 5 ∩ unitDraws) = ENNReal.ofReal (81/640) ∧
      MeasureTheory.volume (trickDrawSet 6 ∩ unitDraws) = ENNReal.ofReal (27/640)) ∧
    (ENNReal.ofReal ((3 : ℝ)/8) ≠ ENNReal.ofReal (1/4) ∧
      ENNReal.ofReal ((33 : ℝ)/160) ≠ ENNReal.ofReal (1/20) ∧
      ENNReal.ofReal ((81 : ℝ)/640) ≠ ENNReal.ofReal (1/5) ∧
      ENNReal.ofReal ((27 : ℝ)/640) ≠ ENNReal.ofReal (1/4)) := by
  refine ⟨⟨trickVolume_zero, trickVolume_one, trickVolume_three,
    trickVolume_five, trickVolume_six⟩, ?_, ?_, ?_, ?_⟩ <;>
  · rw [Ne, ENNReal.ofReal_eq_ofReal_iff (by norm_num) (by norm_num)]
    norm_num
